import Mathlib

/-!
Shallow embedding of the Cosmosnaut repository (src/src/lib.rs,
src/src/main.rs): a minimal emulator of a document database's
database-creation HTTP endpoint.

The Rust code keeps a `HashMapStore` (a `HashMap<String, Database>`)
behind a `tokio::sync::Mutex`; the lock is held for the whole
`create_database` store operation, so every concurrent schedule is
equivalent to some sequential order of the individual `create_database`
calls.  We therefore embed the store as an explicit-state functional
program: the mutable `HashMap` becomes an association list with
HashMap `contains_key` / `insert` / lookup semantics, the `&mut self`
method becomes state passing, and `Result<(), DatabaseError>` becomes
`Except DatabaseError Unit`.
-/

namespace Cosmosnaut

/-- Rust `enum DatabaseError` (lib.rs lines 16-20 and main.rs lines 14-18):
the single domain error, carrying the offending id. -/
inductive DatabaseError where
  | DatabaseExists (id : String)
deriving DecidableEq, Repr

/-- Rust `struct Database` (lib.rs lines 27-29): the stored value, holding
only the database id. -/
structure Database where
  id : String
deriving DecidableEq, Repr

/-- Entry list standing for the Rust `HashMap<String, Database>`:
an association list whose operations below mirror `contains_key`,
`insert` (replace-if-present) and `get`. -/
abbrev Entries := List (String × Database)

/-- HashMap `contains_key`: true iff some entry has the given key. -/
def containsKeyE (e : Entries) (k : String) : Bool :=
  e.any (fun p => p.1 == k)

/-- HashMap `insert`: replaces the value under `k` if present, otherwise
adds the binding.  (In the source the insert is only reached when the key
is absent, but we keep the full HashMap semantics.) -/
def insertE : Entries → String → Database → Entries
  | [], k, v => [(k, v)]
  | (k', v') :: rest, k, v =>
      if k' == k then (k, v) :: rest else (k', v') :: insertE rest k v

/-- HashMap `get`: the value stored under `k`, if any. -/
def lookupE : Entries → String → Option Database
  | [], _ => none
  | (k', v') :: rest, k => if k' == k then some v' else lookupE rest k

/-- Rust `struct HashMapStore` (lib.rs lines 31-33): the registry,
a map from id to `Database`. -/
structure HashMapStore where
  entries : Entries
deriving DecidableEq, Repr

/-- `HashMapStore::new` (lib.rs lines 35-41): the empty registry. -/
def HashMapStore.new : HashMapStore :=
  { entries := [] }

/-- HashMap `contains_key` lifted to the store. -/
def HashMapStore.containsKey (s : HashMapStore) (k : String) : Bool :=
  containsKeyE s.entries k

/-- HashMap lookup lifted to the store. -/
def HashMapStore.lookup (s : HashMapStore) (k : String) : Option Database :=
  lookupE s.entries k

/-- `HashMapStore::create_database` (lib.rs lines 43-53, identical in
main.rs lines 41-51): if the id is already a key, fail with
`DatabaseExists(id)` and leave the store unchanged; otherwise insert
`Database { id }` under that id and succeed.  The Rust `&mut self` is
explicit state passing: the result pairs the `Result` with the
post-state. -/
def HashMapStore.create_database (s : HashMapStore) (id : String) :
    Except DatabaseError Unit × HashMapStore :=
  if containsKeyE s.entries id then
    (Except.error (DatabaseError.DatabaseExists id), s)
  else
    (Except.ok (), { entries := insertE s.entries id { id := id } })

/-- HTTP status code (axum `StatusCode`), identified by its numeric code. -/
structure StatusCode where
  code : Nat
deriving DecidableEq, Repr

/-- `StatusCode::OK`. -/
def StatusCode.OK : StatusCode := { code := 200 }

/-- `StatusCode::BAD_REQUEST`. -/
def StatusCode.BAD_REQUEST : StatusCode := { code := 400 }

/-- Rust `struct CosmosHeaders` (lib.rs lines 81-85): the per-response
metadata from which the header map is built.  The Rust `charge` field is
an `f64` used only through its decimal rendering `charge.to_string()`
in `into_response_parts`; we embed that rendering directly, so the field
holds the string the header receives (the source always sets the charge
to 1.2, rendered "1.2"). -/
structure CosmosHeaders where
  charge : String
  etag : String
  session_token : String
deriving DecidableEq, Repr

/-- `CosmosHeaders::into_response_parts` (lib.rs lines 87-157): the
thirteen `headers.insert` calls, in source order, as (name, value)
pairs.  All thirteen names are distinct, so the insertion-ordered list
is a faithful picture of the resulting header map. -/
def CosmosHeaders.into_response_parts (h : CosmosHeaders) :
    List (String × String) :=
  [("x-ms-request-charge", h.charge),
   ("etag", h.etag),
   ("x-ms-session-token", h.session_token),
   ("x-ms-last-state-change-utc", "Fri, 25 Mar 2016 22:54:09.213 GMT"),
   ("x-ms-resource-quota", "collections=5000"),
   ("x-ms-resource-usage", "collections=28"),
   ("x-ms-quorum-acked-lsn", "7902"),
   ("x-ms-current-write-quorum", "3"),
   ("x-ms-current-replica-set-size", "4"),
   ("x-ms-schemaversion", "1.1"),
   ("x-ms-serviceversion", "version=1.6.52.5"),
   ("x-ms-activity-id", "6050a48c-828d-4016-b73b-5e0ce2ad6271"),
   ("x-ms-gatewayversion", "version=1.6.52.5")]

/-- `azure_data_cosmos::resources::Database` as constructed in the lib.rs
handler (lines 172-180 and 189-197): the JSON response body with its
seven fields (id, resource id, timestamp, self link, etag, collections
link, users link). -/
structure CosmosDatabase where
  id : String
  rid : String
  ts : Nat
  self_link : String
  etag : String
  colls : String
  users : String
deriving DecidableEq, Repr

/-- The JSON rendering of the body as (field name, field value) pairs,
using the struct's field names (`_self` is the Rust name of the self
link field). -/
def CosmosDatabase.jsonBody (d : CosmosDatabase) : List (String × String) :=
  [("id", d.id),
   ("rid", d.rid),
   ("ts", toString d.ts),
   ("_self", d.self_link),
   ("etag", d.etag),
   ("colls", d.colls),
   ("users", d.users)]

/-- Rust `struct CreateDatabaseRequest` (lib.rs lines 202-205): the
parsed JSON request body. -/
structure CreateDatabaseRequest where
  id : String
deriving DecidableEq, Repr

/-- The lib.rs handler's return value `(StatusCode, CosmosHeaders,
Json<CosmosDatabase>)`. -/
structure LibResponse where
  status : StatusCode
  headers : CosmosHeaders
  body : CosmosDatabase
deriving DecidableEq, Repr

namespace Lib

/-- The lib.rs endpoint handler `create_database` (lib.rs lines 159-200):
locks the shared store, runs `Store::create_database` on the payload id,
and shapes the outcome: on `Ok` a 200 with headers and a body echoing
the submitted id; on `DatabaseExists` a 400 with the same headers and a
placeholder body whose id is "123".  The mutex serialises the whole
call, so the handler is a function from (store, payload) to (response,
store). -/
def create_database (svc : HashMapStore) (payload : CreateDatabaseRequest) :
    LibResponse × HashMapStore :=
  match svc.create_database payload.id with
  | (Except.ok _, s') =>
      ({ status := StatusCode.OK,
         headers :=
           { charge := "1.2",
             etag := "33a64df551425fcc55e4d42a148795d9f25f89d4",
             session_token := "session_token" },
         body :=
           { id := payload.id, rid := "123", ts := 12345,
             self_link := "123", etag := "123", colls := "123",
             users := "123" } }, s')
  | (Except.error (DatabaseError.DatabaseExists _), s') =>
      ({ status := StatusCode.BAD_REQUEST,
         headers :=
           { charge := "1.2",
             etag := "33a64df551425fcc55e4d42a148795d9f25f89d4",
             session_token := "session_token" },
         body :=
           { id := "123", rid := "123", ts := 12345,
             self_link := "123", etag := "123", colls := "123",
             users := "123" } }, s')

end Lib

namespace MainBin

/-- The main.rs endpoint handler `create_database` (main.rs lines 79-88):
locks the shared store, runs `Store::create_database`, and returns only
a status code — 200 on success, 400 on `DatabaseExists`. -/
def create_database (svc : HashMapStore) (payload : CreateDatabaseRequest) :
    StatusCode × HashMapStore :=
  match svc.create_database payload.id with
  | (Except.ok _, s') => (StatusCode.OK, s')
  | (Except.error (DatabaseError.DatabaseExists _), s') =>
      (StatusCode.BAD_REQUEST, s')

end MainBin

/-- A wire-level HTTP response: status, header entries, and the JSON
body's fields when a body exists.  Used to compare the two handlers as
responses: axum renders the lib.rs tuple with the custom headers and
JSON body, and renders main.rs's bare `StatusCode` with no custom
headers and an empty body. -/
structure HttpResponse where
  status : StatusCode
  headers : List (String × String)
  body : Option (List (String × String))
deriving DecidableEq, Repr

/-- Wire rendering of the lib.rs handler's response value. -/
def Lib.toHttpResponse (r : LibResponse) : HttpResponse :=
  { status := r.status,
    headers := r.headers.into_response_parts,
    body := some r.body.jsonBody }

/-- Wire rendering of the main.rs handler's response value: a bare
status code carries no custom headers and no body. -/
def MainBin.toHttpResponse (st : StatusCode) : HttpResponse :=
  { status := st, headers := [], body := none }

/-- Sequential trace of `create_database` store operations.  Because the
handler holds the mutex across the whole check-and-insert, every
concurrent schedule of creation attempts is equivalent to some
sequential order of the attempts; a trace is that order.  Returns the
list of per-attempt outcomes plus the final store. -/
def runCreates (s : HashMapStore) (ids : List String) :
    List (Except DatabaseError Unit) × HashMapStore :=
  match ids with
  | [] => ([], s)
  | id :: rest =>
      let (r, s') := s.create_database id
      let (rs, s'') := runCreates s' rest
      (r :: rs, s'')

/-- Number of successful outcomes among the attempts of a trace that
carried the id `x`. -/
def successCount (ids : List String)
    (rs : List (Except DatabaseError Unit)) (x : String) : Nat :=
  (List.zip ids rs).countP (fun p => p.1 == x && p.2.toBool)

/-- The thirteen header names inserted by
`CosmosHeaders::into_response_parts`, in insertion order. -/
def cosmosHeaderNames : List String :=
  ["x-ms-request-charge", "etag", "x-ms-session-token",
   "x-ms-last-state-change-utc", "x-ms-resource-quota",
   "x-ms-resource-usage", "x-ms-quorum-acked-lsn",
   "x-ms-current-write-quorum", "x-ms-current-replica-set-size",
   "x-ms-schemaversion", "x-ms-serviceversion", "x-ms-activity-id",
   "x-ms-gatewayversion"]

/-- The seven field names of the JSON response body. -/
def cosmosBodyFieldNames : List String :=
  ["id", "rid", "ts", "_self", "etag", "colls", "users"]

/-- The registry invariant: every stored value's `id` field equals the
key it is stored under. -/
def RegistryInv (s : HashMapStore) : Prop :=
  ∀ k d, s.lookup k = some d → d.id = k

/-- Events of one lib.rs handler invocation, used to reason about the
extent of the mutex guard. -/
inductive HandlerEvent where
  | lockAcquire
  | storeCreate (id : String)
  | buildHeadersValue
  | buildBodyValue
  | lockRelease
  | headerMapConstruction
deriving DecidableEq, Repr

/-- Event order of one lib.rs `create_database` handler invocation
(lib.rs lines 159-200), read off the source together with Rust scoping
rules: the guard `x` is bound by `let` at line 163 and is dropped when
the function body's trailing `match` expression has been evaluated,
i.e., after the `CosmosHeaders` literal and the `Json(CosmosDatabase
...)` literal of the taken branch have been constructed; axum's
`into_response_parts` (the HeaderMap inserts) runs on the returned
tuple after the handler future completes, hence after the guard drop.
Both match arms produce the same event order. -/
def Lib.handlerEvents (id : String) : List HandlerEvent :=
  [HandlerEvent.lockAcquire,
   HandlerEvent.storeCreate id,
   HandlerEvent.buildHeadersValue,
   HandlerEvent.buildBodyValue,
   HandlerEvent.lockRelease,
   HandlerEvent.headerMapConstruction]

/-- Annotates each event of a trace with whether the mutex is held when
the event happens, given the lock state on entry: an acquire event runs
with the lock held, a release event runs with it no longer held. -/
def markLockHeld : Bool → List HandlerEvent → List (HandlerEvent × Bool)
  | _, [] => []
  | held, e :: rest =>
      let next :=
        if e = HandlerEvent.lockAcquire then true
        else if e = HandlerEvent.lockRelease then false
        else held
      (e, next) :: markLockHeld next rest

/-! Helper lemmas about the association-list map operations. -/

theorem containsKeyE_cons (k' : String) (v' : Database) (e : Entries)
    (k : String) :
    containsKeyE ((k', v') :: e) k = (k' == k || containsKeyE e k) := by
  simp [containsKeyE]

theorem containsKeyE_insertE_self (e : Entries) (k : String) (v : Database) :
    containsKeyE (insertE e k v) k = true := by
  induction e with
  | nil => simp [insertE, containsKeyE]
  | cons hd tl ih =>
      obtain ⟨k', v'⟩ := hd
      by_cases h : k' = k
      · simp [insertE, h, containsKeyE]
      · simp only [insertE, beq_iff_eq, h, if_false]
        rw [containsKeyE_cons, ih]
        simp

theorem containsKeyE_insertE_ne (e : Entries) (k : String) (v : Database)
    (x : String) (h : x ≠ k) :
    containsKeyE (insertE e k v) x = containsKeyE e x := by
  induction e with
  | nil => simp [insertE, containsKeyE, Ne.symm h]
  | cons hd tl ih =>
      obtain ⟨k', v'⟩ := hd
      by_cases hk : k' = k
      · subst hk
        simp only [insertE, beq_self_eq_true, if_true]
        rw [containsKeyE_cons, containsKeyE_cons]
      · simp only [insertE, beq_iff_eq, hk, if_false]
        rw [containsKeyE_cons, containsKeyE_cons, ih]

theorem lookupE_insertE_self (e : Entries) (k : String) (v : Database) :
    lookupE (insertE e k v) k = some v := by
  induction e with
  | nil => simp [insertE, lookupE]
  | cons hd tl ih =>
      obtain ⟨k', v'⟩ := hd
      by_cases h : k' = k
      · simp [insertE, h, lookupE]
      · simp [insertE, h, lookupE, ih]

theorem lookupE_insertE_ne (e : Entries) (k : String) (v : Database)
    (x : String) (h : x ≠ k) :
    lookupE (insertE e k v) x = lookupE e x := by
  induction e with
  | nil => simp [insertE, lookupE, Ne.symm h]
  | cons hd tl ih =>
      obtain ⟨k', v'⟩ := hd
      by_cases hk : k' = k
      · subst hk
        simp only [insertE, beq_self_eq_true, if_true]
        have : (k' == x) = false := by
          simp [Ne.symm h]
        simp [lookupE, this]
      · simp only [insertE, beq_iff_eq, hk, if_false]
        by_cases hx : k' = x
        · simp [lookupE, hx]
        · simp [lookupE, hx, ih]

theorem containsKeyE_eq_isSome_lookupE (e : Entries) (k : String) :
    containsKeyE e k = (lookupE e k).isSome := by
  induction e with
  | nil => simp [containsKeyE, lookupE]
  | cons hd tl ih =>
      obtain ⟨k', v'⟩ := hd
      rw [containsKeyE_cons]
      by_cases h : k' = k
      · simp [lookupE, h]
      · simp [lookupE, h, ih]

/-! Basic consequences for `create_database`. -/

theorem create_database_present (s : HashMapStore) (id : String)
    (h : s.containsKey id = true) :
    s.create_database id =
      (Except.error (DatabaseError.DatabaseExists id), s) := by
  simp [HashMapStore.create_database, HashMapStore.containsKey] at h ⊢
  simp [h]

theorem create_database_absent (s : HashMapStore) (id : String)
    (h : s.containsKey id = false) :
    s.create_database id =
      (Except.ok (),
       { entries := insertE s.entries id { id := id } }) := by
  simp [HashMapStore.create_database, HashMapStore.containsKey] at h ⊢
  simp [h]

theorem containsKey_create_self (s : HashMapStore) (id : String) :
    ((s.create_database id).2).containsKey id = true := by
  by_cases h : s.containsKey id = true
  · rw [create_database_present s id h]
    exact h
  · rw [create_database_absent s id (by simpa using h)]
    exact containsKeyE_insertE_self _ _ _

theorem containsKey_create_ne (s : HashMapStore) (id x : String)
    (h : x ≠ id) :
    ((s.create_database id).2).containsKey x = s.containsKey x := by
  by_cases hc : s.containsKey id = true
  · rw [create_database_present s id hc]
  · rw [create_database_absent s id (by simpa using hc)]
    exact containsKeyE_insertE_ne _ _ _ _ h

theorem containsKey_create_mono (s : HashMapStore) (id x : String)
    (h : s.containsKey x = true) :
    ((s.create_database id).2).containsKey x = true := by
  by_cases hx : x = id
  · subst hx; exact containsKey_create_self s x
  · rw [containsKey_create_ne s id x hx]; exact h

/-! Lemmas about sequential traces of creation attempts. -/

theorem runCreates_cons (s : HashMapStore) (id : String)
    (rest : List String) :
    runCreates s (id :: rest) =
      ((s.create_database id).1 ::
         (runCreates (s.create_database id).2 rest).1,
       (runCreates (s.create_database id).2 rest).2) := by
  rcases hr : s.create_database id with ⟨r, s'⟩
  simp [runCreates, hr]

theorem successCount_cons (id : String) (ids : List String)
    (r : Except DatabaseError Unit)
    (rs : List (Except DatabaseError Unit)) (x : String) :
    successCount (id :: ids) (r :: rs) x =
      successCount ids rs x + (if (id == x && r.toBool) then 1 else 0) := by
  simp [successCount, List.countP_cons]

theorem successCount_zero_of_contains (ids : List String) :
    ∀ (s : HashMapStore) (x : String), s.containsKey x = true →
      successCount ids (runCreates s ids).1 x = 0 := by
  induction ids with
  | nil =>
      intro s x _
      rfl
  | cons id rest ih =>
      intro s x h
      rw [runCreates_cons, successCount_cons,
        ih _ x (containsKey_create_mono s id x h)]
      by_cases hx : id = x
      · subst hx
        rw [create_database_present s id h]
        simp [Except.toBool]
      · simp [hx]

theorem successCount_le_one_of_absent (ids : List String) :
    ∀ (s : HashMapStore) (x : String), s.containsKey x = false →
      successCount ids (runCreates s ids).1 x ≤ 1 := by
  induction ids with
  | nil =>
      intro s x _
      simp [runCreates, successCount]
  | cons id rest ih =>
      intro s x h
      rw [runCreates_cons, successCount_cons]
      by_cases hx : id = x
      · subst hx
        rw [successCount_zero_of_contains rest _ id
          (containsKey_create_self s id)]
        split <;> simp
      · have hkeep : ((s.create_database id).2).containsKey x = false := by
          rw [containsKey_create_ne s id x (Ne.symm hx)]
          exact h
        have := ih _ x hkeep
        simp [hx]
        omega

theorem runCreates_all_same_present (ids : List String) :
    ∀ (s : HashMapStore) (x : String), (∀ i ∈ ids, i = x) →
      s.containsKey x = true →
      (runCreates s ids).1 =
        List.replicate ids.length
          (Except.error (DatabaseError.DatabaseExists x)) := by
  induction ids with
  | nil =>
      intro s x _ _
      rfl
  | cons id rest ih =>
      intro s x hall h
      have hid : id = x := hall id (by simp)
      subst hid
      rw [runCreates_cons, create_database_present s id h]
      simp [List.replicate_succ]
      exact ih s id (fun i hi => hall i (by simp [hi])) h

theorem runCreates_all_same_absent (s : HashMapStore) (ids : List String)
    (x : String) (hall : ∀ i ∈ ids, i = x)
    (h : s.containsKey x = false) (hne : ids ≠ []) :
    (runCreates s ids).1 =
      Except.ok () ::
        List.replicate (ids.length - 1)
          (Except.error (DatabaseError.DatabaseExists x)) := by
  cases ids with
  | nil => exact absurd rfl hne
  | cons id rest =>
      have hid : id = x := hall id (by simp)
      subst hid
      have hself := containsKey_create_self s id
      rw [runCreates_cons]
      rw [create_database_absent s id h] at hself ⊢
      simp
      exact runCreates_all_same_present rest _ id
        (fun i hi => hall i (by simp [hi])) hself

/-! Evaluation lemmas for the two endpoint handlers. -/

theorem Lib.create_database_headers (s : HashMapStore)
    (p : CreateDatabaseRequest) :
    (Lib.create_database s p).1.headers =
      { charge := "1.2",
        etag := "33a64df551425fcc55e4d42a148795d9f25f89d4",
        session_token := "session_token" } := by
  by_cases h : s.containsKey p.id
  · simp [Lib.create_database, create_database_present s p.id h]
  · simp [Lib.create_database,
      create_database_absent s p.id (by simpa using h)]

theorem Lib.create_database_status (s : HashMapStore)
    (p : CreateDatabaseRequest) :
    (Lib.create_database s p).1.status =
      if s.containsKey p.id then StatusCode.BAD_REQUEST
      else StatusCode.OK := by
  by_cases h : s.containsKey p.id
  · simp [Lib.create_database, create_database_present s p.id h, h]
  · simp [Lib.create_database,
      create_database_absent s p.id (by simpa using h), h]

theorem Lib.create_database_body (s : HashMapStore)
    (p : CreateDatabaseRequest) :
    (Lib.create_database s p).1.body =
      { id := if s.containsKey p.id then "123" else p.id,
        rid := "123", ts := 12345, self_link := "123", etag := "123",
        colls := "123", users := "123" } := by
  by_cases h : s.containsKey p.id
  · simp [Lib.create_database, create_database_present s p.id h, h]
  · simp [Lib.create_database,
      create_database_absent s p.id (by simpa using h), h]

theorem Lib.create_database_state (s : HashMapStore)
    (p : CreateDatabaseRequest) :
    (Lib.create_database s p).2 = (s.create_database p.id).2 := by
  by_cases h : s.containsKey p.id
  · simp [Lib.create_database, create_database_present s p.id h]
  · simp [Lib.create_database,
      create_database_absent s p.id (by simpa using h)]

theorem MainBin.main_handler_status (s : HashMapStore)
    (p : CreateDatabaseRequest) :
    (MainBin.create_database s p).1 =
      if s.containsKey p.id then StatusCode.BAD_REQUEST
      else StatusCode.OK := by
  by_cases h : s.containsKey p.id
  · simp [MainBin.create_database, create_database_present s p.id h, h]
  · simp [MainBin.create_database,
      create_database_absent s p.id (by simpa using h), h]

theorem MainBin.main_handler_state (s : HashMapStore)
    (p : CreateDatabaseRequest) :
    (MainBin.create_database s p).2 = (s.create_database p.id).2 := by
  by_cases h : s.containsKey p.id
  · simp [MainBin.create_database, create_database_present s p.id h]
  · simp [MainBin.create_database,
      create_database_absent s p.id (by simpa using h)]

/-! Claim theorems. -/

/-- C1: `HashMapStore::create_database` fails with `DatabaseExists(id)`
and leaves the registry unchanged when `id` is already a key; otherwise
it inserts a new `Database` with that id and succeeds; consequently,
creating the same id twice in sequence yields success then failure, and
the second attempt does not mutate the registry. -/
theorem C1_create_semantics (s : HashMapStore) (id : String) :
    (s.containsKey id = true →
        s.create_database id =
          (Except.error (DatabaseError.DatabaseExists id), s)) ∧
    (s.containsKey id = false →
        (s.create_database id).1 = Except.ok () ∧
        ((s.create_database id).2).lookup id = some { id := id } ∧
        ((s.create_database id).2).create_database id =
          (Except.error (DatabaseError.DatabaseExists id),
           (s.create_database id).2)) := by
  constructor
  · intro h
    exact create_database_present s id h
  · intro h
    refine ⟨?_, ?_, ?_⟩
    · rw [create_database_absent s id h]
    · rw [create_database_absent s id h]
      exact lookupE_insertE_self s.entries id { id := id }
    · exact create_database_present _ id (containsKey_create_self s id)

/-- Witness for C1 at the empty registry and id "store1". -/
theorem C1_witness :
    HashMapStore.new.containsKey "store1" = false ∧
    (HashMapStore.new.create_database "store1").1 = Except.ok () ∧
    ((HashMapStore.new.create_database "store1").2).create_database
        "store1" =
      (Except.error (DatabaseError.DatabaseExists "store1"),
       (HashMapStore.new.create_database "store1").2) :=
  ⟨by decide,
   ((C1_create_semantics HashMapStore.new "store1").2 (by decide)).1,
   ((C1_create_semantics HashMapStore.new "store1").2 (by decide)).2.2⟩

/-- C2: on a successful create the lib.rs handler returns status 200
with a body echoing the submitted id; on `AlreadyExists` it returns
status 400 with body id "123", a fixed placeholder different from every
submitted id other than "123" itself. -/
theorem C2_handler_status_body (s : HashMapStore)
    (p : CreateDatabaseRequest) :
    (s.containsKey p.id = false →
        (Lib.create_database s p).1.status = StatusCode.OK ∧
        (Lib.create_database s p).1.body.id = p.id) ∧
    (s.containsKey p.id = true →
        (Lib.create_database s p).1.status = StatusCode.BAD_REQUEST ∧
        (Lib.create_database s p).1.body.id = "123" ∧
        (p.id ≠ "123" →
          (Lib.create_database s p).1.body.id ≠ p.id)) := by
  constructor
  · intro h
    rw [Lib.create_database_status, Lib.create_database_body]
    simp [h]
  · intro h
    rw [Lib.create_database_status, Lib.create_database_body]
    simp [h]
    intro hne heq
    exact hne heq.symm

/-- Witness for C2: id "store1" against the empty registry (success
branch) and against a registry already holding "store1" (duplicate
branch). -/
theorem C2_witness :
    (HashMapStore.new.containsKey "store1" = false ∧
     (Lib.create_database HashMapStore.new
         { id := "store1" }).1.status = StatusCode.OK ∧
     (Lib.create_database HashMapStore.new
         { id := "store1" }).1.body.id = "store1") ∧
    ((HashMapStore.mk
        [("store1", { id := "store1" })]).containsKey "store1" = true ∧
     (Lib.create_database (HashMapStore.mk
         [("store1", { id := "store1" })])
         { id := "store1" }).1.status = StatusCode.BAD_REQUEST ∧
     (Lib.create_database (HashMapStore.mk
         [("store1", { id := "store1" })])
         { id := "store1" }).1.body.id ≠ "store1") :=
  ⟨⟨by decide,
    ((C2_handler_status_body HashMapStore.new { id := "store1" }).1
        (by decide)).1,
    ((C2_handler_status_body HashMapStore.new { id := "store1" }).1
        (by decide)).2⟩,
   ⟨by decide,
    ((C2_handler_status_body
        (HashMapStore.mk [("store1", { id := "store1" })])
        { id := "store1" }).2 (by decide)).1,
    ((C2_handler_status_body
        (HashMapStore.mk [("store1", { id := "store1" })])
        { id := "store1" }).2 (by decide)).2.2 (by decide)⟩⟩

/-- C3: for every registry state and request, the response (success or
duplicate) carries exactly the thirteen enumerated headers and a body
with the seven enumerated fields. -/
theorem C3_response_shape (s : HashMapStore) (p : CreateDatabaseRequest) :
    ((Lib.create_database s p).1.headers.into_response_parts).map
        Prod.fst = cosmosHeaderNames ∧
    ((Lib.create_database s p).1.body.jsonBody).map Prod.fst =
      cosmosBodyFieldNames := by
  constructor
  · rw [Lib.create_database_headers]
    rfl
  · rw [Lib.create_database_body]
    rfl

/-- C4: in any linearized trace of creation attempts (the mutex makes
every concurrent schedule equivalent to such a trace), at most one
attempt for an id `x` ever succeeds — none if `x` is already present —
and when all attempts of a nonempty trace carry the same absent id, the
first succeeds and the remaining N-1 fail with `AlreadyExists(x)`. -/
theorem C4_linearizability (s : HashMapStore) (ids : List String)
    (x : String) :
    successCount ids (runCreates s ids).1 x ≤ 1 ∧
    (s.containsKey x = true →
        successCount ids (runCreates s ids).1 x = 0) ∧
    (s.containsKey x = false → (∀ i ∈ ids, i = x) → ids ≠ [] →
        (runCreates s ids).1 =
          Except.ok () ::
            List.replicate (ids.length - 1)
              (Except.error (DatabaseError.DatabaseExists x))) := by
  refine ⟨?_, ?_, ?_⟩
  · by_cases h : s.containsKey x
    · rw [successCount_zero_of_contains ids s x h]
      omega
    · exact successCount_le_one_of_absent ids s x (by simpa using h)
  · intro h
    exact successCount_zero_of_contains ids s x h
  · intro h hall hne
    exact runCreates_all_same_absent s ids x hall h hne

/-- Witness for C4: three attempts at "race" from the empty registry
give success then two `AlreadyExists` failures; with "race" already
present, an attempt records no success. -/
theorem C4_witness :
    (HashMapStore.new.containsKey "race" = false ∧
     (runCreates HashMapStore.new ["race", "race", "race"]).1 =
       Except.ok () ::
         List.replicate 2
           (Except.error (DatabaseError.DatabaseExists "race"))) ∧
    ((HashMapStore.mk [("race", { id := "race" })]).containsKey "race" =
        true ∧
     successCount ["race"]
       (runCreates (HashMapStore.mk [("race", { id := "race" })])
         ["race"]).1 "race" = 0) :=
  ⟨⟨by decide,
    (C4_linearizability HashMapStore.new ["race", "race", "race"]
        "race").2.2 (by decide) (by decide) (by decide)⟩,
   ⟨by decide,
    (C4_linearizability (HashMapStore.mk [("race", { id := "race" })])
        ["race"] "race").2.1 (by decide)⟩⟩

/-- C5: the header set of the duplicate (400) response is identical to
the header set of the success (200) response — the headers do not
depend on the registry state or the submitted id at all. -/
theorem C5_headers_identical (s₁ s₂ : HashMapStore)
    (p₁ p₂ : CreateDatabaseRequest) :
    (Lib.create_database s₁ p₁).1.headers.into_response_parts =
      (Lib.create_database s₂ p₂).1.headers.into_response_parts := by
  rw [Lib.create_database_headers, Lib.create_database_headers]

/-- C6: for distinct ids neither of which is present, creating A and
then B both succeed and afterwards the registry contains both. -/
theorem C6_distinct (s : HashMapStore) (a b : String) (hab : a ≠ b)
    (ha : s.containsKey a = false) (hb : s.containsKey b = false) :
    (s.create_database a).1 = Except.ok () ∧
    (((s.create_database a).2).create_database b).1 = Except.ok () ∧
    ((((s.create_database a).2).create_database b).2).containsKey a =
      true ∧
    ((((s.create_database a).2).create_database b).2).containsKey b =
      true := by
  have h1 : ((s.create_database a).2).containsKey b = false := by
    rw [containsKey_create_ne s a b (Ne.symm hab)]
    exact hb
  refine ⟨?_, ?_, ?_, ?_⟩
  · rw [create_database_absent s a ha]
  · rw [create_database_absent _ b h1]
  · exact containsKey_create_mono _ b a (containsKey_create_self s a)
  · exact containsKey_create_self _ b

/-- Witness for C6 at the empty registry with ids "store1", "store2". -/
theorem C6_witness :
    ("store1" : String) ≠ "store2" ∧
    (HashMapStore.new.create_database "store1").1 = Except.ok () ∧
    (((HashMapStore.new.create_database "store1").2).create_database
        "store2").1 = Except.ok () ∧
    ((((HashMapStore.new.create_database "store1").2).create_database
        "store2").2).containsKey "store1" = true ∧
    ((((HashMapStore.new.create_database "store1").2).create_database
        "store2").2).containsKey "store2" = true :=
  ⟨by decide,
   (C6_distinct HashMapStore.new "store1" "store2" (by decide)
       (by decide) (by decide)).1,
   (C6_distinct HashMapStore.new "store1" "store2" (by decide)
       (by decide) (by decide)).2.1,
   (C6_distinct HashMapStore.new "store1" "store2" (by decide)
       (by decide) (by decide)).2.2.1,
   (C6_distinct HashMapStore.new "store1" "store2" (by decide)
       (by decide) (by decide)).2.2.2⟩

/-- C7 (counterexample to the claim as stated): at the concrete id
"store1", the mutex is still held at the moment the `CosmosHeaders`
response value is constructed — the guard is dropped only when the
handler body finishes — refuting "the lock is released before any
response header or body construction" and "the lock is never held while
the response headers are being constructed". -/
theorem C7_counterexample :
    (HandlerEvent.buildHeadersValue, true) ∈
      markLockHeld false (Lib.handlerEvents "store1") := by
  decide

/-- C7 (amended): the lock is acquired at the start of the handler, the
check-and-insert runs while it is held, it remains held while the
response header and body values are constructed, and it is released
when the handler body finishes — before axum builds the HTTP header map
from the returned `CosmosHeaders` value. -/
theorem C7_lock_scope (id : String) :
    markLockHeld false (Lib.handlerEvents id) =
      [(HandlerEvent.lockAcquire, true),
       (HandlerEvent.storeCreate id, true),
       (HandlerEvent.buildHeadersValue, true),
       (HandlerEvent.buildBodyValue, true),
       (HandlerEvent.lockRelease, false),
       (HandlerEvent.headerMapConstruction, false)] := by
  simp [Lib.handlerEvents, markLockHeld]

/-- C8: the store performs no validation of the id string: any string
not yet present — including the empty string — is accepted and inserted
under itself. -/
theorem C8_no_validation (s : HashMapStore) (id : String)
    (h : s.containsKey id = false) :
    (s.create_database id).1 = Except.ok () ∧
    ((s.create_database id).2).lookup id = some { id := id } := by
  rw [create_database_absent s id h]
  exact ⟨rfl, lookupE_insertE_self s.entries id { id := id }⟩

/-- Witness for C8: the empty string is accepted on the empty
registry. -/
theorem C8_witness :
    HashMapStore.new.containsKey "" = false ∧
    (HashMapStore.new.create_database "").1 = Except.ok () ∧
    ((HashMapStore.new.create_database "").2).lookup "" =
      some { id := "" } :=
  ⟨by decide,
   (C8_no_validation HashMapStore.new "" (by decide)).1,
   (C8_no_validation HashMapStore.new "" (by decide)).2⟩

/-- C9: the registry invariant — every stored value's `id` field equals
the key it is stored under — holds for the empty registry and is
preserved by every create call, successful or failed. -/
theorem C9_invariant_preserved :
    RegistryInv HashMapStore.new ∧
    ∀ (s : HashMapStore) (id : String), RegistryInv s →
      RegistryInv (s.create_database id).2 := by
  constructor
  · intro k d hd
    simp [HashMapStore.new, HashMapStore.lookup, lookupE] at hd
  · intro s id hs
    by_cases h : s.containsKey id
    · rw [create_database_present s id h]
      exact hs
    · rw [create_database_absent s id (by simpa using h)]
      intro k d hd
      simp only [HashMapStore.lookup] at hd
      by_cases hk : k = id
      · subst hk
        rw [lookupE_insertE_self] at hd
        injection hd with hd'
        rw [← hd']
      · rw [lookupE_insertE_ne s.entries id { id := id } k hk] at hd
        exact hs k d hd

/-- Witness for C9: the invariant after one create on the empty
registry, with the invariant for the empty registry discharged
explicitly. -/
theorem C9_witness :
    RegistryInv (HashMapStore.new.create_database "store1").2 :=
  C9_invariant_preserved.2 HashMapStore.new "store1"
    (fun _ _ hd => by
      simp [HashMapStore.new, HashMapStore.lookup, lookupE] at hd)

/-- C10: the main.rs handler returns only a status code — 200 on
success, 400 on `AlreadyExists` — with no custom headers and no body;
it agrees with the lib.rs handler on the status code and the post-state
for every input, but the two wire responses are never equal. -/
theorem C10_refinement (s : HashMapStore) (p : CreateDatabaseRequest) :
    (MainBin.toHttpResponse (MainBin.create_database s p).1).status =
      (Lib.toHttpResponse (Lib.create_database s p).1).status ∧
    (MainBin.create_database s p).2 = (Lib.create_database s p).2 ∧
    (MainBin.toHttpResponse (MainBin.create_database s p).1).headers =
      [] ∧
    (MainBin.toHttpResponse (MainBin.create_database s p).1).body =
      none ∧
    MainBin.toHttpResponse (MainBin.create_database s p).1 ≠
      Lib.toHttpResponse (Lib.create_database s p).1 := by
  refine ⟨?_, ?_, rfl, rfl, ?_⟩
  · simp [MainBin.toHttpResponse, Lib.toHttpResponse,
      MainBin.main_handler_status, Lib.create_database_status]
  · rw [MainBin.main_handler_state, Lib.create_database_state]
  · intro hcontra
    have hh := congrArg HttpResponse.headers hcontra
    simp [MainBin.toHttpResponse, Lib.toHttpResponse,
      Lib.create_database_headers,
      CosmosHeaders.into_response_parts] at hh

end Cosmosnaut
